import Mathlib

/-!
# Verification of the radiation-setup supervisor core

A shallow embedding, in Lean 4, of the parts of the `radhelper/radiation-setup`
server that its specification talks about:

* the telemetry line parser (`server/line_parser.py`),
* the per-machine event accounting (`server/machine_events.py`),
* the supervisor receive step and hard-reboot counter (`server/machine.py`),
* the command rotation engine (`server/command_factory.py`),
* the summary dataclasses (`server/machine_summary.py`),
* the pacing-delay call sites (`server/reboot_machine.py`, `server/utils.py`,
  `server/machine_events/server_status.py`).

Python floats and `time.time()` timestamps are modelled as rationals (the
values exercised here are exact decimals); Python exceptions are modelled with
`Except` over an explicit error type; `None`-able fields are `Option`s.
Each definition is translated from the named source function.
-/

namespace RadiationSetup

/-- Python exception classes that the embedded code can raise. -/
inductive PyErr where
  | valueError
  | typeError
  | keyError
  | assertionError
deriving DecidableEq, Repr

/-- A dynamically typed numeric value, as stored in the dict returned by
`parse_it_line` (Python ints and floats). -/
inductive PyVal where
  | int (n : Int)
  | float (q : ℚ)
deriving DecidableEq, Repr

/-- Convert a Python numeric value to a rational. -/
def PyVal.toRat : PyVal → ℚ
  | .int n => (n : ℚ)
  | .float q => q

/-- Convert a Python numeric value to an integer (the float branch is not
reachable from dicts produced by `parse_it_line`, whose `iter` field is an int). -/
def PyVal.toInt : PyVal → Int
  | .int n => n
  | .float q => ⌊q⌋

/-- A Python dict with string keys and numeric values, as returned by
`parse_it_line`. -/
def PyDict := List (String × PyVal)

/-- Python `d[k]`: raises `KeyError` when the key is absent. -/
def dictGet (d : PyDict) (k : String) : Except PyErr PyVal :=
  match d.find? (fun p => p.1 = k) with
  | some p => .ok p.2
  | none => .error .keyError

/-- Numeric value of a list of decimal digit characters. -/
def digitsToNat (ds : List Char) : Nat :=
  ds.foldl (fun a c => 10 * a + (c.toNat - 48)) 0

/-- An unsigned run of one or more decimal digits (the digit core of the
`parse` library's `d` type). -/
def parseDigits (ds : List Char) : Option Nat :=
  if ds.isEmpty then none
  else if ds.all Char.isDigit then some (digitsToNat ds) else none

/-- The `parse` library's `{name:d}` field: an optionally signed run of
decimal digits, matched against the whole segment. -/
def parseIntLit (cs : List Char) : Option Int :=
  match cs with
  | '+' :: ds => (parseDigits ds).map Int.ofNat
  | '-' :: ds => (parseDigits ds).map (fun n => -(n : Int))
  | ds => (parseDigits ds).map Int.ofNat

/-- Digit part of a fixed-point literal: `digits* '.' digits+`. -/
def fixedCore (cs : List Char) : Option ℚ :=
  match cs.splitOn '.' with
  | [ip, fp] =>
    if ip.all Char.isDigit ∧ ¬ fp.isEmpty ∧ fp.all Char.isDigit then
      some ((digitsToNat ip : ℚ) + (digitsToNat fp : ℚ) / ((10 : ℚ) ^ fp.length))
    else none
  | _ => none

/-- The `parse` library's `{name:f}` field: an optionally signed fixed-point
number, matched against the whole segment. -/
def parseFixedLit (cs : List Char) : Option ℚ :=
  match cs with
  | '+' :: ds => fixedCore ds
  | '-' :: ds => (fixedCore ds).map Neg.neg
  | ds => fixedCore ds

/-- Split a character list on a (non-empty) separator occurrence, Python
`str.split(sep)` style. The fuel argument only bounds the recursion; it is
`cs.length` at the top call, which one-character-or-more consumption per step
never exhausts. -/
def splitOnCharsAux (sep : List Char) : Nat → List Char → List Char → List (List Char)
  | _, [], acc => [acc.reverse]
  | 0, cs, acc => [acc.reverse ++ cs]
  | fuel + 1, c :: cs, acc =>
    if sep.isPrefixOf (c :: cs) then
      acc.reverse :: splitOnCharsAux sep fuel ((c :: cs).drop sep.length) []
    else
      splitOnCharsAux sep fuel cs (c :: acc)

/-- Split on every occurrence of the separator. -/
def splitOnChars (sep cs : List Char) : List (List Char) :=
  splitOnCharsAux sep cs.length cs []

/-- `parse.parse("{iter:d} KerTime:{ker_time:f} AccTime:{acc_time:f}", text)`:
an anchored full match of the iteration line format. The numeric fields cannot
contain a space or a colon, so splitting on the literal separators is exact.
Returns `none` exactly when the Python call returns `None`. -/
def parseItFormat (text : String) : Option (Int × ℚ × ℚ) :=
  match splitOnChars " KerTime:".data text.data with
  | [a, rest] =>
    match splitOnChars " AccTime:".data rest with
    | [b, c] => do
      let i ← parseIntLit a
      let k ← parseFixedLit b
      let q ← parseFixedLit c
      pure (i, k, q)
    | _ => none
  | _ => none

/-- `server/line_parser.py`, `parse_it_line` (the module imported by
`machine_events.py`). It asserts the `#IT` marker, matches the format against
the whole text — without stripping the `#IT ` marker first — and then
subscripts the result: when `parse.parse` returns `None`, `vals['iter']`
raises `TypeError`. -/
def parse_it_line (text : String) : Except PyErr PyDict :=
  if "#IT".data.isPrefixOf text.data then
    match parseItFormat text with
    | none => .error .typeError
    | some (i, k, a) =>
      .ok [("iteration", .int i), ("kernel_time", .float k), ("accumulated_time", .float a)]
  else .error .assertionError

/-- `server/machine_status.py`, `MachineStatus`. -/
inductive MachineStatus where
  | ACTIVE
  | REBOOTING
  | SLEEPING
  | UNKNOWN
deriving DecidableEq, Repr

/-- `server/machine_events.py`, `MAX_CONSECUTIVE_HARD_REBOOTS`. -/
def MAX_CONSECUTIVE_HARD_REBOOTS : Nat := 6

/-- `server/machine_events.py`, `SLEEP_TIME_AFTER_FAILED_REBOOTS = 30 * 60`. -/
def SLEEP_TIME_AFTER_FAILED_REBOOTS : ℚ := 30 * 60

/-- The mutable fields of `server/machine_events.py`, `MachineEvents.__init__`
(the external `machine` and `logger` references are dropped; the counters the
summary reads from the machine are passed explicitly to the operations that
need them). -/
structure MachineEventsState where
  status : MachineStatus
  benchmark_start : Option ℚ
  last_run_start : Option ℚ
  last_run_end : Option ℚ
  run_start : Option ℚ
  benchmark_acc_time : ℚ
  run_acc_time : ℚ
  benchmark_sdcs : Nat
  benchmark_logs : Nat
  first_log_time : Option ℚ
  last_log_time : Option ℚ
  benchmark_iterations : Int
  run_iterations : Int
  run_sdcs : Nat
  run_logs : Nat
  first_sdc_time : Option ℚ
  last_sdc_time : Option ℚ
  benchmark_dues : Nat
  first_due_time : Option ℚ
  last_due_time : Option ℚ
  benchmark_soft_reboots : Nat
  last_soft_reboot_time : Option ℚ
  benchmark_hard_reboots : Nat
  last_hard_reboot_time : Option ℚ
deriving DecidableEq, Repr

namespace MachineEventsState

/-- The state right after `MachineEvents.__init__`. -/
def init : MachineEventsState where
  status := .UNKNOWN
  benchmark_start := none
  last_run_start := none
  last_run_end := none
  run_start := none
  benchmark_acc_time := 0
  run_acc_time := 0
  benchmark_sdcs := 0
  benchmark_logs := 0
  first_log_time := none
  last_log_time := none
  benchmark_iterations := 0
  run_iterations := 0
  run_sdcs := 0
  run_logs := 0
  first_sdc_time := none
  last_sdc_time := none
  benchmark_dues := 0
  first_due_time := none
  last_due_time := none
  benchmark_soft_reboots := 0
  last_soft_reboot_time := none
  benchmark_hard_reboots := 0
  last_hard_reboot_time := none

/-- `MachineEvents.start_benchmark` (the already-set case only warns). -/
def start_benchmark (s : MachineEventsState) (start_time : ℚ) : MachineEventsState :=
  { s with benchmark_start := some start_time }

/-- `MachineEvents.start_run`. -/
def start_run (s : MachineEventsState) (start_time : ℚ) : MachineEventsState :=
  { s with
    run_start := some start_time
    run_logs := 0
    run_iterations := 0
    run_sdcs := 0
    run_acc_time := 0
    last_soft_reboot_time := none
    last_hard_reboot_time := none }

/-- `MachineEvents.end_run`. -/
def end_run (s : MachineEventsState) (end_time : ℚ) : MachineEventsState :=
  { s with
    last_run_start := s.run_start
    last_run_end := some end_time
    run_start := none
    benchmark_sdcs := s.benchmark_sdcs + s.run_sdcs
    benchmark_acc_time := s.benchmark_acc_time + s.run_acc_time
    benchmark_iterations := s.benchmark_iterations + s.run_iterations }

/-- `MachineEvents.log`. -/
def log (s : MachineEventsState) (log_count : Nat) (log_time : ℚ) : MachineEventsState :=
  { s with
    first_log_time := some (s.first_log_time.getD log_time)
    last_log_time := some log_time
    benchmark_logs := s.benchmark_logs + log_count
    run_logs := s.run_logs + log_count }

/-- `MachineEvents.sdc` (the increment is a literal `1`, whatever
`sdc_count` is passed). -/
def sdc (s : MachineEventsState) (sdc_time : ℚ) : MachineEventsState :=
  log { s with run_sdcs := s.run_sdcs + 1 } 1 sdc_time

/-- `MachineEvents.iteration`: both dict subscripts happen before any field is
assigned, so a `KeyError` leaves the state untouched. The dict produced by
`parse_it_line` has no key `'iterations'` (it stores `'iteration'`), so the
second subscript raises. -/
def iteration (s : MachineEventsState) (info_entry : PyDict) (info_time : ℚ) :
    Except PyErr MachineEventsState := do
  let acc_time ← dictGet info_entry "accumulated_time"
  let iterations ← dictGet info_entry "iterations"
  .ok (log { s with run_acc_time := acc_time.toRat, run_iterations := iterations.toInt } 1 info_time)

/-- `MachineEvents.soft_reboot` with the default `reboot_count=1`. -/
def soft_reboot (s : MachineEventsState) (reboot_time : ℚ) : MachineEventsState :=
  { s with
    benchmark_soft_reboots := s.benchmark_soft_reboots + 1
    last_soft_reboot_time := some reboot_time }

/-- `MachineEvents.hard_reboot` with the default `reboot_count=1`. -/
def hard_reboot (s : MachineEventsState) (reboot_time : ℚ) : MachineEventsState :=
  { s with
    benchmark_hard_reboots := s.benchmark_hard_reboots + 1
    last_hard_reboot_time := some reboot_time }

/-- `MachineEvents.due` (the increment is a literal `1`). -/
def due (s : MachineEventsState) (due_time : ℚ) : MachineEventsState :=
  end_run
    { s with
      benchmark_dues := s.benchmark_dues + 1
      first_due_time := some (s.first_due_time.getD due_time)
      last_due_time := some due_time }
    due_time

/-- `MachineEvents._handle_event`: dispatch on the event type string; an
unrecognized type raises `ValueError`. -/
def _handle_event (s : MachineEventsState) (event_type event_message : String) (now : ℚ) :
    Except PyErr MachineEventsState :=
  if event_type = "#IT" then do
    let line_values ← parse_it_line event_message
    s.iteration line_values now
  else if event_type = "#HEADER" then .ok (s.start_run now)
  else if event_type = "#END" then .ok (s.end_run now)
  else if event_type = "#INF" then .ok (s.log 1 now)
  else if event_type = "#ERR" then .ok (s.log 1 now)
  else if event_type = "#SDC" then .ok (s.sdc now)
  else if event_type = "#ABORT" then .ok (s.due now)
  else if event_type = "#LOGFILE" then .ok s
  else .error .valueError

/-- `MachineEvents.handle_event`: only `ValueError` is caught (and logged);
every other exception propagates to the caller. -/
def handle_event (s : MachineEventsState) (event_type event_message : String) (now : ℚ) :
    Except PyErr MachineEventsState :=
  match s._handle_event event_type event_message now with
  | .error .valueError => .ok s
  | r => r

end MachineEventsState

/-- `server/utils.py`, `safe_max` (as applied to the two nullable reboot
timestamps in `create_summary`). -/
def safe_max (a b : Option ℚ) : Option ℚ :=
  match a, b with
  | none, b => b
  | some x, none => some x
  | some x, some y => some (max x y)

/-- The three summary dataclasses of `server/machine_summary.py` (the module
`machine_events.py` imports): `ActiveMachineSummary`, `RebootingMachineSummary`
and `SleepingMachineSummary`. There is no variant for the `UNKNOWN` status.
The external `machine` reference is dropped; the `benchmark` field is the
machine-name string. -/
inductive MachineSummary where
  | active (benchmark : String) (benchmark_start : ℚ)
      (logs_per_sec iterations_per_sec : ℚ) (sdc_count_total sdc_count_run : Nat)
  | rebooting (benchmark : String) (reboot_attempts : Nat) (last_active : Option ℚ)
      (last_reboot_attempt : Option ℚ) (max_reboot_attempts : Nat)
  | sleeping (benchmark : String) (last_active : Option ℚ)
      (last_reboot_attempt : ℚ) (next_reboot : ℚ)
deriving DecidableEq, Repr

/-- The `status` dataclass default of each summary variant. -/
def MachineSummary.statusOf : MachineSummary → MachineStatus
  | .active _ _ _ _ _ _ => .ACTIVE
  | .rebooting _ _ _ _ _ => .REBOOTING
  | .sleeping _ _ _ _ => .SLEEPING

/-- The status computation at the head of `MachineEvents.create_summary`
(`machine_events.py` lines 218-225): `consecutive_soft_reboots` and
`consecutive_hard_reboots` are the machine's `soft_app_reboot_count` and
`hard_reboot_count`. -/
def derive_status (run_start : Option ℚ)
    (consecutive_soft_reboots consecutive_hard_reboots : Nat) : MachineStatus :=
  if run_start.isSome then .ACTIVE
  else if consecutive_hard_reboots < MAX_CONSECUTIVE_HARD_REBOOTS
      ∧ 0 < consecutive_soft_reboots then .REBOOTING
  else if consecutive_hard_reboots = MAX_CONSECUTIVE_HARD_REBOOTS then .SLEEPING
  else .UNKNOWN

/-- `MachineEvents.create_summary`. Returns `none` (Python `None`) in the
`UNKNOWN` branch. In the `ACTIVE` branch, `time.time() - self.benchmark_start`
raises `TypeError` when `benchmark_start` is `None`; in the `SLEEPING` branch,
`last_reboot_attempt + SLEEP_TIME_AFTER_FAILED_REBOOTS` raises `TypeError`
when both reboot timestamps are `None`. -/
def MachineEventsState.create_summary (s : MachineEventsState)
    (consecutive_soft_reboots consecutive_hard_reboots : Nat)
    (benchmark : String) (now : ℚ) : Except PyErr (Option MachineSummary) :=
  match derive_status s.run_start consecutive_soft_reboots consecutive_hard_reboots with
  | .ACTIVE =>
    match s.benchmark_start, s.run_start with
    | none, _ => .error .typeError
    | some _, none => .error .typeError
    | some bstart, some rstart =>
      let benchmark_duration := now - bstart
      let logs_per_sec := if benchmark_duration > 0 then (s.benchmark_logs : ℚ) / benchmark_duration else 0
      let run_duration := now - rstart
      let iterations_per_sec := if run_duration > 0 then (s.run_iterations : ℚ) / run_duration else 0
      .ok (some (.active benchmark bstart logs_per_sec iterations_per_sec
        s.benchmark_sdcs s.run_sdcs))
  | .REBOOTING =>
    let last_reboot_attempt := safe_max s.last_hard_reboot_time s.last_soft_reboot_time
    let reboot_attempts := max consecutive_soft_reboots consecutive_hard_reboots
    .ok (some (.rebooting benchmark reboot_attempts s.last_run_end last_reboot_attempt
      MAX_CONSECUTIVE_HARD_REBOOTS))
  | .SLEEPING =>
    match safe_max s.last_hard_reboot_time s.last_soft_reboot_time with
    | none => .error .typeError
    | some l =>
      .ok (some (.sleeping benchmark s.last_run_end l (l + SLEEP_TIME_AFTER_FAILED_REBOOTS)))
  | .UNKNOWN => .ok none

/-- `server/machine.py`, `Machine.__ALL_POSSIBLE_CONNECTION_TYPES`. -/
def ALL_POSSIBLE_CONNECTION_TYPES : List String :=
  ["#IT", "#HEADER", "#BEGIN", "#END", "#INF", "#ERR", "#SDC", "#ABORT"]

/-- The classification loop in `Machine.run`: the first prefix of the ordered
list that matches wins; otherwise the type stays
`"UnknownConn:" + data_decoded[:10]`. -/
def classify_connection (data_decoded : String) : String :=
  match ALL_POSSIBLE_CONNECTION_TYPES.find? (fun sub => sub.data.isPrefixOf data_decoded.data) with
  | some sub => sub
  | none => String.mk ("UnknownConn:".data ++ data_decoded.data.take 10)

/-- The supervisor counters of `server/machine.py` together with its
`MachineEvents` instance. -/
structure MachineState where
  soft_app_reboot_count : Nat
  soft_os_reboot_count : Nat
  hard_reboot_count : Nat
  events : MachineEventsState
deriving DecidableEq, Repr

/-- Machine state right after the constructor. -/
def MachineState.init : MachineState :=
  ⟨0, 0, 0, MachineEventsState.init⟩

/-- One successful-receive step of the `Machine.run` main loop: decode and
drop byte 0, classify, `handle_event`, and on an `#IT` classification reset
`soft_app_reboot_count` and `hard_reboot_count` to 0. An exception from
`handle_event` is not caught in `run` (its handler only catches the socket
timeout), so it propagates as an error and the later resets never execute. -/
def MachineState.receive_step (m : MachineState) (data : String) (now : ℚ) :
    Except PyErr MachineState := do
  let data_decoded := String.mk (data.data.drop 1)
  let connection_type_str := classify_connection data_decoded
  let ev ← m.events.handle_event connection_type_str data_decoded now
  let m' := { m with events := ev }
  if connection_type_str = "#IT" then
    .ok { m' with soft_app_reboot_count := 0, hard_reboot_count := 0 }
  else
    .ok m'

/-- `server/machine.py`, `Machine.__POWER_SWITCH_DEFAULT_TIME_REST`. -/
def POWER_SWITCH_DEFAULT_TIME_REST : Nat := 4

/-- `server/machine.py`, `Machine.__LONG_REBOOT_WAIT_TIME_AFTER_PROBLEM`. -/
def LONG_REBOOT_WAIT_TIME_AFTER_PROBLEM : Nat := 1800

/-- `server/machine.py`, `Machine.__MAX_SEQUENTIALLY_HARD_REBOOTS`. -/
def MAX_SEQUENTIALLY_HARD_REBOOTS : Nat := 6

/-- The counter/rest update at the head of `Machine.__hard_reboot`
(machine.py lines 358-364): returns the new `hard_reboot_count` and the
chosen `reboot_sleep_time`. -/
def hard_reboot_step (hard_reboot_count : Nat) : Nat × Nat :=
  if MAX_SEQUENTIALLY_HARD_REBOOTS < hard_reboot_count then
    (0, LONG_REBOOT_WAIT_TIME_AFTER_PROBLEM)
  else
    (hard_reboot_count + 1, POWER_SWITCH_DEFAULT_TIME_REST)

/-- The values `hard_reboot_count` can take: it starts at 0, is updated by
`Machine.__hard_reboot`, and is reset to 0 by the `#IT` branch of the main
loop. No other statement writes it. -/
inductive HardCountReachable : Nat → Prop where
  | init : HardCountReachable 0
  | hard {c : Nat} : HardCountReachable c → HardCountReachable (hard_reboot_step c).1
  | it_reset {c : Nat} : HardCountReachable c → HardCountReachable 0

/-- A command-catalog record, with the JSON keys `server/command_factory.py`
reads: `exec`, `killcmd`, `codename`, `header`. -/
structure Command where
  «exec» : String
  killcmd : String
  codename : String
  header : String
deriving DecidableEq, Repr

/-- The state of `server/command_factory.py`, `CommandFactory` (the ascii
encoding of the returned strings is the identity on the ascii payloads and is
left implicit). -/
structure CommandFactoryState where
  json_data_list : List Command
  cmd_queue : List Command
  current_command : Command
  start_timestamp : ℚ
  command_window : ℚ
deriving DecidableEq, Repr

/-- `collections.deque.pop()`: removes and returns the RIGHT end of the deque;
`none` models `IndexError` on an empty deque. -/
def dequePop (l : List Command) : Option (Command × List Command) :=
  match l.getLast? with
  | none => none
  | some c => some (c, l.dropLast)

/-- `CommandFactory.__check_and_refill_the_queue`: refill the queue from the
full catalog only when it is empty. -/
def check_and_refill_the_queue (json_data_list cmd_queue : List Command) : List Command :=
  if cmd_queue.isEmpty then json_data_list else cmd_queue

/-- `CommandFactory.__init__` after the catalogs are concatenated into
`json_data_list`, at construction time `t0`: fill the queue and `pop()` the
first current command. `none` models the `IndexError` on an empty catalog. -/
def CommandFactoryState.make (json_data_list : List Command) (command_window t0 : ℚ) :
    Option CommandFactoryState :=
  match dequePop (check_and_refill_the_queue json_data_list []) with
  | none => none
  | some (c, q) => some ⟨json_data_list, q, c, t0, command_window⟩

/-- `CommandFactory.is_command_window_timeout` at time `now`. -/
def CommandFactoryState.is_command_window_timeout (st : CommandFactoryState) (now : ℚ) : Bool :=
  now - st.start_timestamp > st.command_window

/-- `CommandFactory.get_commands_and_test_info` at time `now`: refill the
queue if empty; if the window timed out, `pop()` the next command and stamp
it with `now`; return `(cmd_exec, code_name, code_header)` — the exec string
is returned exactly as stored in the catalog entry. `none` models the
`IndexError` on an empty catalog. -/
def CommandFactoryState.get_commands_and_test_info (st : CommandFactoryState) (now : ℚ) :
    Option ((String × String × String) × CommandFactoryState) :=
  let st := { st with cmd_queue := check_and_refill_the_queue st.json_data_list st.cmd_queue }
  if st.is_command_window_timeout now then
    match dequePop st.cmd_queue with
    | none => none
    | some (c, q) =>
      let st := { st with current_command := c, cmd_queue := q, start_timestamp := now }
      some ((c.exec, c.codename, c.header), st)
  else
    some ((st.current_command.exec, st.current_command.codename, st.current_command.header), st)

/-- The sequence of `code_name` values returned by successive
`get_commands_and_test_info` calls at the given times. -/
def CommandFactoryState.get_code_names (st : CommandFactoryState) (times : List ℚ) :
    Option (List String × CommandFactoryState) :=
  match times with
  | [] => some ([], st)
  | t :: ts =>
    match st.get_commands_and_test_info t with
    | none => none
    | some ((_, name, _), st') =>
      match st'.get_code_names ts with
      | none => none
      | some (names, stEnd) => some (name :: names, stEnd)

/-- How a pacing delay is implemented: an uncancellable wall-clock
`time.sleep`, or a cancellable `stop_event.wait`. -/
inductive WaitKind where
  | wallClockSleep
  | stopEventWait
deriving DecidableEq, Repr

/-- `server/utils.py`, `wait_time`: its body is `time.sleep(duration)`. -/
def wait_time_kind : WaitKind := .wallClockSleep

/-- `server/reboot_machine.py`, `reboot_machine`: the rest interval between
the OFF and the ON command is `time.sleep(rebooting_sleep)` (line 143). -/
def reboot_machine_rest_kind : WaitKind := .wallClockSleep

/-- `server/machine_events/server_status.py`, `ServerStatus.run`: the
refresh-interval wait is `wait_time(self.refresh_interval)`. -/
def server_status_refresh_kind : WaitKind := wait_time_kind

/-- The parameter list of `reboot_machine` (`server/reboot_machine.py`
line 128), in source order. -/
def reboot_machine_params : List String :=
  ["address", "switch_model", "switch_port", "switch_ip", "rebooting_sleep", "logger_name"]

/-- The keyword arguments `Machine.__hard_reboot` passes in its call to
`reboot_machine` (`server/machine.py` lines 368-374). -/
def hard_reboot_call_kwargs : List String :=
  ["address", "switch_model", "switch_port", "switch_ip", "rebooting_sleep",
   "logger_name", "thread_event"]

/-- Status derivation as the specification words it: `ACTIVE` if `run_start`
is non-null; otherwise `REBOOTING` if `consecutive_hard_reboots < 6` and
`consecutive_soft_reboots > 0`; otherwise `SLEEPING` if
`consecutive_hard_reboots == 6`; otherwise `UNKNOWN`. Stated for comparison
with `derive_status`, which is translated from the code. -/
def status_per_spec (run_start : Option ℚ) (soft hard : Nat) : MachineStatus :=
  if run_start ≠ none then .ACTIVE
  else if hard < 6 ∧ soft > 0 then .REBOOTING
  else if hard = 6 then .SLEEPING
  else .UNKNOWN

/-- Status carried by a `create_summary` result: `UNKNOWN` for Python `None`,
the variant's status for a summary object, nothing for an exception. -/
def resultStatus : Except PyErr (Option MachineSummary) → Option MachineStatus
  | .ok none => some .UNKNOWN
  | .ok (some m) => some m.statusOf
  | .error _ => none

/-- Test catalog entry A (first in declaration order). -/
def cmdA : Command := ⟨"./a", "pkill a", "A", "hA"⟩

/-- Test catalog entry B. -/
def cmdB : Command := ⟨"./b", "pkill b", "B", "hB"⟩

/-- Test catalog entry C (last in declaration order). -/
def cmdC : Command := ⟨"./c", "pkill c", "C", "hC"⟩

/-- A catalog entry whose exec string carries no `nohup` and no `&\r\n`. -/
def cmdLs : Command := ⟨"ls", "pkill ls", "LS", "h"⟩

/-- A machine-events state mid-run: a run started at time 0 and one SDC was
recorded at time 1 (so `run_sdcs = 1`, `run_logs = 1`, `benchmark_logs = 1`). -/
def midRunState : MachineEventsState :=
  (MachineEventsState.init.start_run 0).sdc 1

/-!
## Theorems
-/

/-- C1: for the datagram `b"\x00#IT 42 KerTime:0.010 AccTime:1.000\n"` the
payload after dropping byte 0 is indeed classified `#IT`, but the parser does
not yield `iter=42`: `parse.parse` is run against the payload with the
`#IT ` marker still attached, fails, and the subscript on its `None` result
raises `TypeError`; `handle_event` does not catch `TypeError`, so the
supervisor's receive step raises instead of updating `run_iterations`,
`run_acc_time` or resetting the reboot counters. -/
theorem C1_it_datagram_raises_type_error :
    classify_connection "#IT 42 KerTime:0.010 AccTime:1.000\n" = "#IT"
    ∧ parse_it_line "#IT 42 KerTime:0.010 AccTime:1.000\n" = .error .typeError
    ∧ MachineState.init.receive_step "\x00#IT 42 KerTime:0.010 AccTime:1.000\n" 0
        = .error .typeError :=
  ⟨rfl, rfl, rfl⟩

/-- C2: `handle_event` catches only `ValueError` (raised for unknown event
types), so an unknown-type event is a logged no-op with the state unchanged —
but an `#IT` payload that fails to parse raises `TypeError`, which
`handle_event` does not catch: the failure propagates out of the supervisor's
event-handling step. -/
theorem C2_parse_failure_escapes_handle_event :
    MachineEventsState.init.handle_event "#IT" "#IT not-a-number KerTime:x AccTime:y" 0
        = .error .typeError
    ∧ MachineEventsState.init.handle_event "UnknownConn:#FOO bar" "#FOO bar" 0
        = .ok MachineEventsState.init :=
  ⟨rfl, rfl⟩

/-- C5 counterexample: in a run with one SDC (`run_sdcs = 1`, `run_logs = 1`,
`benchmark_logs = 1`), calling `end_run` leaves `run_sdcs` at 1 — not 0 as the
claim states — and leaves `benchmark_logs` at 1 rather than adding `run_logs`. -/
theorem C5_counterexample :
    midRunState.run_sdcs = 1
    ∧ midRunState.run_logs = 1
    ∧ midRunState.benchmark_logs = 1
    ∧ (midRunState.end_run 2).run_sdcs = 1
    ∧ ¬ (midRunState.end_run 2).run_sdcs = 0
    ∧ (midRunState.end_run 2).benchmark_logs = 1 :=
  ⟨rfl, rfl, rfl, rfl, by decide, rfl⟩

/-- C5 (amended): `end_run` folds `run_sdcs`, `run_acc_time` and
`run_iterations` into the corresponding benchmark counters, leaves
`benchmark_logs` untouched (logs accrue into it directly as they arrive),
sets `last_run_end` and clears `run_start`; the run counters keep their
values across `end_run` and are reset to 0 only by the next `start_run`. -/
theorem C5_end_run_folds_without_reset (s : MachineEventsState) (t t' : ℚ) :
    (s.end_run t).benchmark_sdcs = s.benchmark_sdcs + s.run_sdcs
    ∧ (s.end_run t).benchmark_acc_time = s.benchmark_acc_time + s.run_acc_time
    ∧ (s.end_run t).benchmark_iterations = s.benchmark_iterations + s.run_iterations
    ∧ (s.end_run t).benchmark_logs = s.benchmark_logs
    ∧ (s.end_run t).run_sdcs = s.run_sdcs
    ∧ (s.end_run t).run_logs = s.run_logs
    ∧ (s.end_run t).run_iterations = s.run_iterations
    ∧ (s.end_run t).run_acc_time = s.run_acc_time
    ∧ (s.end_run t).run_start = none
    ∧ (s.end_run t).last_run_end = some t
    ∧ ((s.end_run t).start_run t').run_sdcs = 0
    ∧ ((s.end_run t).start_run t').run_logs = 0
    ∧ ((s.end_run t).start_run t').run_iterations = 0
    ∧ ((s.end_run t).start_run t').run_acc_time = 0 :=
  ⟨rfl, rfl, rfl, rfl, rfl, rfl, rfl, rfl, rfl, rfl, rfl, rfl, rfl, rfl⟩

/-- C6: the status computed at the head of `create_summary` is exactly the
specified derivation — `ACTIVE` when `run_start` is non-null, else
`REBOOTING` when `consecutive_hard_reboots < 6` and
`consecutive_soft_reboots > 0`, else `SLEEPING` when
`consecutive_hard_reboots = 6`, else `UNKNOWN`. -/
theorem C6_status_derivation (run_start : Option ℚ) (soft hard : Nat) :
    derive_status run_start soft hard = status_per_spec run_start soft hard := by
  cases run_start <;>
    simp [derive_status, status_per_spec, MAX_CONSECUTIVE_HARD_REBOOTS]

/-- C8: every pacing delay named by the claim is an uncancellable wall-clock
`time.sleep`, not a wait on the stop-signal: the rest interval inside
`reboot_machine` and the status aggregator's refresh wait (via `wait_time`)
are both wall-clock sleeps, and `reboot_machine` does not even accept the
`thread_event` keyword its caller `Machine.__hard_reboot` passes. -/
theorem C8_pacing_sleeps_are_wall_clock :
    reboot_machine_rest_kind = .wallClockSleep
    ∧ reboot_machine_rest_kind ≠ .stopEventWait
    ∧ server_status_refresh_kind = .wallClockSleep
    ∧ wait_time_kind = .wallClockSleep
    ∧ "thread_event" ∉ reboot_machine_params
    ∧ "thread_event" ∈ hard_reboot_call_kwargs := by
  refine ⟨rfl, by decide, rfl, rfl, by decide, by decide⟩

/-- C10: every reachable value of `hard_reboot_count` lies between 0 and 7;
the hard-reboot operation increments the counter (with the 4-second rest)
while it is at most 6 and resets it to 0 with the 1800-second rest once it
exceeds 6; the value 7 is reachable; and with no run in progress a machine
with `hard_reboot_count = 7` derives status `UNKNOWN` (the `SLEEPING` test
requires equality with 6). -/
theorem C10_hard_reboot_counter_invariant :
    (∀ c, HardCountReachable c → c ≤ 7)
    ∧ HardCountReachable 7
    ∧ (∀ c, c ≤ 6 → hard_reboot_step c = (c + 1, 4))
    ∧ hard_reboot_step 7 = (0, 1800)
    ∧ (∀ soft, derive_status none soft 7 = .UNKNOWN) := by
  refine ⟨?_, ?_, ?_, by decide, ?_⟩
  · intro c h
    induction h with
    | init => decide
    | it_reset _ _ => decide
    | hard _ ih =>
      rename_i c' _
      by_cases hc : MAX_SEQUENTIALLY_HARD_REBOOTS < c'
      · simp [hard_reboot_step, hc]
      · simp only [hard_reboot_step, if_neg hc]
        simp only [MAX_SEQUENTIALLY_HARD_REBOOTS, Nat.not_lt] at hc
        omega
  · exact .hard (.hard (.hard (.hard (.hard (.hard (.hard .init))))))
  · intro c hc
    have : ¬ MAX_SEQUENTIALLY_HARD_REBOOTS < c := by
      simp [MAX_SEQUENTIALLY_HARD_REBOOTS]; omega
    simp [hard_reboot_step, this, POWER_SWITCH_DEFAULT_TIME_REST]
  · intro soft
    simp [derive_status, MAX_CONSECUTIVE_HARD_REBOOTS]

/-- C10 witness: the invariant applied at the reachable value 7, and the
increment branch applied at 5. -/
theorem C10_witness :
    7 ≤ 7 ∧ hard_reboot_step 5 = (6, 4) :=
  ⟨C10_hard_reboot_counter_invariant.1 7 C10_hard_reboot_counter_invariant.2.1,
   C10_hard_reboot_counter_invariant.2.2.1 5 (by decide)⟩

/-- C3 counterexample: for a catalog entry whose exec string is plain `"ls"`,
`get_commands_and_test_info` returns `"ls"` itself — it neither begins with
`"nohup "` nor ends with `" &\r\n"`: no normalization is applied. -/
theorem C3_counterexample :
    CommandFactoryState.make [cmdLs] 10 0 = some ⟨[cmdLs], [], cmdLs, 0, 10⟩
    ∧ ((⟨[cmdLs], [], cmdLs, 0, 10⟩ : CommandFactoryState).get_commands_and_test_info 0).map
        (fun r => r.1.1) = some "ls"
    ∧ "nohup ".data.isPrefixOf "ls".data = false
    ∧ " &\r\n".data.isSuffixOf "ls".data = false := by
  refine ⟨rfl, ?_, by decide, by decide⟩
  simp only [CommandFactoryState.get_commands_and_test_info, check_and_refill_the_queue,
    CommandFactoryState.is_command_window_timeout, dequePop, cmdLs]
  norm_num

/-- C3 (amended): the `cmd_exec` string returned by
`get_commands_and_test_info` is the catalog entry's exec field verbatim (as
are the code name and header): no `nohup` prefix or ` &\r\n` suffix is added
or stripped. -/
theorem C3_exec_returned_verbatim (st : CommandFactoryState) (now : ℚ)
    (out : String × String × String) (st' : CommandFactoryState)
    (h : st.get_commands_and_test_info now = some (out, st')) :
    out.1 = st'.current_command.exec
    ∧ out.2.1 = st'.current_command.codename
    ∧ out.2.2 = st'.current_command.header := by
  obtain ⟨e, n, hd⟩ := out
  unfold CommandFactoryState.get_commands_and_test_info at h
  dsimp only at h
  split at h
  · split at h
    · exact absurd h (by simp)
    · simp only [Option.some.injEq, Prod.mk.injEq] at h
      obtain ⟨⟨h1, h2, h3⟩, hst⟩ := h
      subst hst
      exact ⟨h1.symm, h2.symm, h3.symm⟩
  · simp only [Option.some.injEq, Prod.mk.injEq] at h
    obtain ⟨⟨h1, h2, h3⟩, hst⟩ := h
    subst hst
    exact ⟨h1.symm, h2.symm, h3.symm⟩

/-- C3 witness: the amended theorem applied to the `"ls"` catalog at a call
inside the window. -/
theorem C3_exec_returned_verbatim_witness :
    "ls" = cmdLs.exec ∧ "LS" = cmdLs.codename ∧ "h" = cmdLs.header :=
  C3_exec_returned_verbatim ⟨[cmdLs], [], cmdLs, 0, 10⟩ 0 ("ls", "LS", "h")
    ⟨[cmdLs], [cmdLs], cmdLs, 0, 10⟩
    (by
      simp only [CommandFactoryState.get_commands_and_test_info, check_and_refill_the_queue,
        CommandFactoryState.is_command_window_timeout, dequePop, cmdLs]
      norm_num)

/-- C4: for the catalog `[A, B, C]` with a 10-second window, constructed at
t = 0, `get_commands_and_test_info` at t = 0, 11, 22, 33 returns the code
names `C, B, A, C` — the queue is a `collections.deque` popped from the
right, so rotation runs in reverse declaration order starting from the last
declared command, not `A, B, C, A` in declaration order as the claim (and the
code's own FIFO comment) state. -/
theorem C4_rotation_is_reverse_declaration_order :
    CommandFactoryState.make [cmdA, cmdB, cmdC] 10 0
        = some ⟨[cmdA, cmdB, cmdC], [cmdA, cmdB], cmdC, 0, 10⟩
    ∧ (⟨[cmdA, cmdB, cmdC], [cmdA, cmdB], cmdC, 0, 10⟩
        : CommandFactoryState).get_code_names [0, 11, 22, 33]
        = some (["C", "B", "A", "C"], ⟨[cmdA, cmdB, cmdC], [cmdA, cmdB], cmdC, 33, 10⟩)
    ∧ ["C", "B", "A", "C"] ≠ ["A", "B", "C", "A"] := by
  refine ⟨rfl, ?_, by decide⟩
  simp only [CommandFactoryState.get_code_names, CommandFactoryState.get_commands_and_test_info,
    check_and_refill_the_queue, CommandFactoryState.is_command_window_timeout, dequePop,
    cmdA, cmdB, cmdC]
  norm_num

/-- C7 counterexample: in the fresh state (no run, both reboot counters 0)
the derived status is `UNKNOWN` and `create_summary` returns Python `None` —
an absent result, not a fourth summary variant (the summary module defines
only the `Active`, `Rebooting` and `Sleeping` variants). -/
theorem C7_counterexample :
    derive_status MachineEventsState.init.run_start 0 0 = .UNKNOWN
    ∧ MachineEventsState.init.create_summary 0 0 "m" 5 = .ok none :=
  ⟨rfl, rfl⟩

/-- C7 (amended): whenever `create_summary` returns normally, it returns
`None` exactly on the `UNKNOWN` status, and any summary object it returns is
the variant matching the derived status. -/
theorem C7_summary_variant_matches_status (s : MachineEventsState)
    (soft hard : Nat) (b : String) (now : ℚ) (res : Option MachineSummary)
    (h : s.create_summary soft hard b now = .ok res) :
    (res = none ↔ derive_status s.run_start soft hard = .UNKNOWN)
    ∧ ∀ m, res = some m → m.statusOf = derive_status s.run_start soft hard := by
  unfold MachineEventsState.create_summary at h
  cases hd : derive_status s.run_start soft hard <;> rw [hd] at h
  case ACTIVE =>
    cases hb : s.benchmark_start <;> cases hr : s.run_start <;> rw [hb, hr] at h
    case none.none => exact absurd h (by simp)
    case none.some => exact absurd h (by simp)
    case some.none => exact absurd h (by simp)
    case some.some =>
      simp only [Except.ok.injEq] at h
      subst h
      exact ⟨by simp, fun m hm => by cases hm; rfl⟩
  case REBOOTING =>
    simp only [Except.ok.injEq] at h
    subst h
    exact ⟨by simp, fun m hm => by cases hm; rfl⟩
  case SLEEPING =>
    cases hsm : safe_max s.last_hard_reboot_time s.last_soft_reboot_time <;> rw [hsm] at h
    case none => exact absurd h (by simp)
    case some =>
      simp only [Except.ok.injEq] at h
      subst h
      exact ⟨by simp, fun m hm => by cases hm; rfl⟩
  case UNKNOWN =>
    simp only [Except.ok.injEq] at h
    subst h
    exact ⟨by simp, fun m hm => by cases hm⟩

/-- C7 witness: the amended theorem applied at a rebooting state (one soft
reboot recorded, no run in progress). -/
theorem C7_summary_variant_matches_status_witness :
    (some (MachineSummary.rebooting "m" 1 none none 6) = none
        ↔ derive_status MachineEventsState.init.run_start 1 0 = .UNKNOWN)
    ∧ ∀ m, some (MachineSummary.rebooting "m" 1 none none 6) = some m
        → m.statusOf = derive_status MachineEventsState.init.run_start 1 0 :=
  C7_summary_variant_matches_status MachineEventsState.init 1 0 "m" 0
    (some (.rebooting "m" 1 none none 6)) rfl

/-- C9 counterexample: catalog `[A, B]`, 10-second window, constructed at
t = 0; calls at t = 6 and t = 12 are spaced 6 < 10 seconds apart, yet the
first returns code name `B` and the second returns `A` — the rotation guard
compares against the current command's `start_timestamp`, not against the
time of the previous call. -/
theorem C9_counterexample :
    CommandFactoryState.make [cmdA, cmdB] 10 0 = some ⟨[cmdA, cmdB], [cmdA], cmdB, 0, 10⟩
    ∧ (⟨[cmdA, cmdB], [cmdA], cmdB, 0, 10⟩ : CommandFactoryState).get_code_names [6, 12]
        = some (["B", "A"], ⟨[cmdA, cmdB], [], cmdA, 12, 10⟩)
    ∧ (12 : ℚ) - 6 < 10
    ∧ ("B" : String) ≠ "A" := by
  refine ⟨rfl, ?_, by norm_num, by decide⟩
  simp only [CommandFactoryState.get_code_names, CommandFactoryState.get_commands_and_test_info,
    check_and_refill_the_queue, CommandFactoryState.is_command_window_timeout, dequePop,
    cmdA, cmdB]
  norm_num

/-- C9 (amended): a `get_commands_and_test_info` call returns the current
command's code name unchanged — and does not restamp it — whenever it occurs
no more than `window` seconds after that command's `start_timestamp` (the
last rotation); spacing relative to the previous call alone does not prevent
rotation. -/
theorem C9_same_code_name_within_window (st : CommandFactoryState) (now : ℚ)
    (h : now - st.start_timestamp ≤ st.command_window) :
    ∃ st', st.get_commands_and_test_info now
        = some ((st.current_command.exec, st.current_command.codename,
            st.current_command.header), st')
      ∧ st'.current_command = st.current_command
      ∧ st'.start_timestamp = st.start_timestamp := by
  refine ⟨{ st with cmd_queue := check_and_refill_the_queue st.json_data_list st.cmd_queue },
    ?_, rfl, rfl⟩
  unfold CommandFactoryState.get_commands_and_test_info
  simp only [CommandFactoryState.is_command_window_timeout]
  rw [if_neg]
  simp only [decide_eq_true_eq, not_lt]
  exact h

/-- C9 witness: the amended theorem applied to a one-command catalog at a
call 5 seconds into a 10-second window. -/
theorem C9_same_code_name_within_window_witness :
    ∃ st', (⟨[cmdA], [], cmdA, 0, 10⟩
        : CommandFactoryState).get_commands_and_test_info 5
        = some ((cmdA.exec, cmdA.codename, cmdA.header), st')
      ∧ st'.current_command = cmdA
      ∧ st'.start_timestamp = 0 :=
  C9_same_code_name_within_window ⟨[cmdA], [], cmdA, 0, 10⟩ 5 (by norm_num)

end RadiationSetup
